import Mathlib

/-!
Verification of the Flask_JWT token lifecycle and revocation subsystem.

The definitions below are a shallow embedding of src/flask_jwt_extended/utils.py
and src/examples/redis_blacklist.py.  Claim payloads are modelled by a JSON-like
value type; machine details of the wire codec (the external jwt library) are
modelled from the spec where noted.  Timestamps are integers (seconds).
-/

namespace FlaskJWT

/-- JSON-like values carried as JWT claims (the payload of a decoded token). -/
inductive JVal where
  | jnull : JVal
  | jbool : Bool → JVal
  | jnum : Int → JVal
  | jstr : String → JVal
  | jmap : List (String × String) → JVal

/-- A decoded token payload: a Python dict from claim names to values. -/
abbrev Claims := List (String × JVal)

/-- Dictionary lookup, first binding wins (Python dict access d[k] / d.get(k)). -/
def lookup (d : Claims) (k : String) : Option JVal :=
  match d with
  | [] => none
  | (k2, v) :: rest => if k2 == k then some v else lookup rest k

/-- Python truthiness of a claim value, as used by statements like
    if not jwt_data[...] in the source. -/
def pyTruthy : JVal → Bool
  | .jnull => false
  | .jbool b => b
  | .jnum n => n != 0
  | .jstr s => s != ""
  | .jmap m => !m.isEmpty

/-- The exceptions raised by the source, one constructor per exception class.
    pyCrash stands for an unhandled Python exception (for example IndexError),
    which is not part of the intended error taxonomy. -/
inductive JWTError where
  | encodeError : String → JWTError
  | decodeError : String → JWTError
  | expiredError : JWTError
  | invalidHeaderError : String → JWTError
  | noAuthorizationError : String → JWTError
  | wrongTokenError : String → JWTError
  | freshTokenRequired : String → JWTError
  | csrfError : String → JWTError
  | revokedTokenError : JWTError
  | pyCrash : String → JWTError

/-- Whether an error is the missing-token error (except NoAuthorizationError
    clauses in the source catch exactly these). -/
def JWTError.isNoAuth : JWTError → Bool
  | .noAuthorizationError _ => true
  | _ => false

/-- What the external jwt library recovers from an encoded token string:
    whether the signature verifies against the configured secret, the temporal
    claims, and the remaining payload. -/
structure EncodedToken where
  sigValid : Bool
  nbf : Int
  exp : Int
  payload : Claims

/-- Modelled from the spec: the decode step of the external jwt library used by
    _decode_jwt (the library itself is not part of this repository).  Per the
    spec it rejects on signature mismatch, rejects if now < nbf, and rejects
    with the distinguished expired error if now >= exp; otherwise it yields the
    payload. -/
def jwt_decode (tok : EncodedToken) (now : Int) : Except JWTError Claims :=
  if !tok.sigValid then .error (.decodeError "Signature verification failed")
  else if now < tok.nbf then .error (.decodeError "The token is not yet valid")
  else if tok.exp ≤ now then .error .expiredError
  else .ok tok.payload

/-- _decode_jwt from utils.py: run the library decode, then check shape of the
    custom claims: jti present and a string, identity present, type either
    access or refresh, and for access tokens fresh present and boolean plus
    user_claims present and a dict. -/
def _decode_jwt (tok : EncodedToken) (now : Int) : Except JWTError Claims :=
  match jwt_decode tok now with
  | .error e => .error e
  | .ok data =>
    match lookup data "jti" with
    | some (.jstr _) =>
      match lookup data "identity" with
      | none => .error (.decodeError "Missing claim: identity")
      | some _ =>
        match lookup data "type" with
        | some (.jstr "access") =>
          (match lookup data "fresh" with
           | some (.jbool _) =>
             match lookup data "user_claims" with
             | some (.jmap _) => .ok data
             | _ => .error (.decodeError "Missing or invalid claim: user_claims")
           | _ => .error (.decodeError "Missing or invalid claim: fresh"))
        | some (.jstr "refresh") => .ok data
        | _ => .error (.decodeError "Missing or invalid claim: type")
    | _ => .error (.decodeError "Missing or invalid claim: jti")

/-- Helper for pySplit: walk the characters, accumulating the current word
    (in reverse) and emitting it at each whitespace run or at the end. -/
def splitWsAux : List Char → List Char → List String
  | [], acc => if acc.isEmpty then [] else [String.mk acc.reverse]
  | c :: cs, acc =>
    if c.isWhitespace then
      (if acc.isEmpty then splitWsAux cs [] else String.mk acc.reverse :: splitWsAux cs [])
    else splitWsAux cs (c :: acc)

/-- Python str.split with no argument: split on runs of whitespace, dropping
    empty pieces. -/
def pySplit (s : String) : List String := splitWsAux s.toList []

/-- The configuration values read by utils.py.  header_type empty means no
    scheme word is configured (Python: if not header_type).
    Fields in order: token_location, header_type, access_header_name,
    refresh_header_name, access_cookie_name, refresh_cookie_name,
    access_csrf_header_name, refresh_csrf_header_name, cookie_csrf_protect,
    csrf_request_methods, blacklist_enabled, blacklist_checks. -/
structure Config where
  token_location : List String
  header_type : String
  access_header_name : String
  refresh_header_name : String
  access_cookie_name : String
  refresh_cookie_name : String
  access_csrf_header_name : String
  refresh_csrf_header_name : String
  cookie_csrf_protect : Bool
  csrf_request_methods : List String
  blacklist_enabled : Bool
  blacklist_checks : String

/-- The parts of a Flask request the extractor reads. -/
structure Request where
  headers : List (String × String)
  cookies : List (String × String)
  method : String

/-- request.headers.get / request.cookies.get -/
def getStr (d : List (String × String)) (k : String) : Option String :=
  match d with
  | [] => none
  | (k2, v) :: rest => if k2 == k then some v else getStr rest k

/-- The ambient decoding environment: which token content each candidate token
    string carries (the wire codec is the external jwt library), and the
    current time. -/
structure Env where
  tokenOf : String → EncodedToken
  now : Int

/-- _decode_jwt applied to a token string through the wire codec. -/
def decode_token_string (env : Env) (s : String) : Except JWTError Claims :=
  _decode_jwt (env.tokenOf s) env.now

/-- _decode_jwt_from_headers from utils.py.  Reads the configured header;
    missing or empty raises NoAuthorizationError.  The value is split on
    whitespace; with no configured scheme word exactly one part is required,
    otherwise the first part must equal the scheme word and there must be
    exactly two parts.  Note that with a scheme word configured the source
    evaluates parts[0] before checking the length, which raises an unhandled
    IndexError when the header value is whitespace only. -/
def _decode_jwt_from_headers (cfg : Config) (env : Env) (r : Request) (ty : String) :
    Except JWTError Claims :=
  match getStr r.headers (if ty == "access" then cfg.access_header_name else cfg.refresh_header_name) with
  | none => .error (.noAuthorizationError "Missing Header")
  | some jwt_header =>
    if jwt_header == "" then .error (.noAuthorizationError "Missing Header")
    else
      if cfg.header_type == "" then
        match pySplit jwt_header with
        | [t] => decode_token_string env t
        | _ => .error (.invalidHeaderError "Bad header. Expected value <JWT>")
      else
        match pySplit jwt_header with
        | [] => .error (.pyCrash "IndexError: list index out of range")
        | p0 :: rest =>
          if p0 == cfg.header_type && rest.length == 1 then
            decode_token_string env (rest.headD "")
          else .error (.invalidHeaderError "Bad header. Expected value <type> <JWT>")

/-- werkzeug safe_str_cmp: constant-time string comparison; functionally
    equality of the two strings. -/
def safe_str_cmp (a b : String) : Bool := a == b

/-- _decode_jwt_from_cookies from utils.py.  Reads the configured cookie for
    the token type; missing or empty raises NoAuthorizationError.  The cookie
    value is decoded; then, if CSRF protection is on and the request method is
    in the configured method set, the embedded csrf claim must be a present
    string (else JWTDecodeError), the CSRF header must be present (else
    CSRFError) and must compare equal to the claim (else CSRFError). -/
def _decode_jwt_from_cookies (cfg : Config) (env : Env) (r : Request) (ty : String) :
    Except JWTError Claims :=
  match getStr r.cookies (if ty == "access" then cfg.access_cookie_name else cfg.refresh_cookie_name) with
  | none => .error (.noAuthorizationError "Missing cookie")
  | some tokStr =>
    if tokStr == "" then .error (.noAuthorizationError "Missing cookie")
    else
      match decode_token_string env tokStr with
      | .error e => .error e
      | .ok token =>
        if cfg.cookie_csrf_protect && cfg.csrf_request_methods.contains r.method then
          match lookup token "csrf" with
          | none => .error (.decodeError "Missing claim: csrf")
          | some (.jstr csrf_cookie) =>
            (match getStr r.headers (if ty == "access" then cfg.access_csrf_header_name else cfg.refresh_csrf_header_name) with
             | none => .error (.csrfError "Missing CSRF token in headers")
             | some csrf_header =>
               if safe_str_cmp csrf_header csrf_cookie then .ok token
               else .error (.csrfError "CSRF double submit tokens do not match"))
          | some _ => .error (.decodeError "Invalid claim: csrf must be a string")
        else .ok token

/-- _decode_jwt_from_request from utils.py: when both locations are configured,
    try headers and fall through to cookies only on NoAuthorizationError; if
    both paths report missing, raise the combined NoAuthorizationError.  With a
    single configured location, just that path runs. -/
def _decode_jwt_from_request (cfg : Config) (env : Env) (r : Request) (ty : String) :
    Except JWTError Claims :=
  if cfg.token_location.contains "headers" && cfg.token_location.contains "cookies" then
    match _decode_jwt_from_headers cfg env r ty with
    | .ok c => .ok c
    | .error e =>
      if e.isNoAuth then
        match _decode_jwt_from_cookies cfg env r ty with
        | .ok c => .ok c
        | .error e2 =>
          if e2.isNoAuth then .error (.noAuthorizationError "Missing JWT in header and cookies")
          else .error e2
      else .error e
  else if cfg.token_location.contains "headers" then
    _decode_jwt_from_headers cfg env r ty
  else
    _decode_jwt_from_cookies cfg env r ty

/-- A ledger record: the stored token payload and its revoked flag. -/
structure StoredRecord where
  token : Claims
  revoked : Bool

/-- The revocation ledger store: jti keyed records. -/
abbrev Store := List (String × StoredRecord)

/-- Modelled from the spec: store_token of flask_jwt_extended.blacklist is not
    under src (only its callers in utils.py are).  Registration writes one
    record keyed by the token jti, carrying the full claims payload plus a
    revoked flag. -/
def store_token (store : Store) (token_data : Claims) (revoked : Bool) : Store :=
  match lookup token_data "jti" with
  | some (.jstr jti) => (jti, ⟨token_data, revoked⟩) :: store
  | _ => store

/-- Modelled from the spec: which token types are in the configured check scope
    (JWT_BLACKLIST_TOKEN_CHECKS): all covers access and refresh, refresh covers
    refresh tokens only. -/
def inScope (cfg : Config) (ty : String) : Bool :=
  if cfg.blacklist_checks == "all" then ty == "access" || ty == "refresh"
  else if cfg.blacklist_checks == "refresh" then ty == "refresh"
  else false

/-- Modelled from the spec: check_if_token_revoked of
    flask_jwt_extended.blacklist is not under src.  For a token whose type is
    in the configured check scope, its jti is looked up in the store; the check
    fails with the revoked error if the record is marked revoked or if there is
    no record at all (an unknown jti is treated as revoked, fail safe).  Types
    outside the scope are not checked. -/
def check_if_token_revoked (cfg : Config) (store : Store) (jwt_data : Claims) :
    Except JWTError Unit :=
  match lookup jwt_data "type" with
  | some (.jstr ty) =>
    if inScope cfg ty then
      match lookup jwt_data "jti" with
      | some (.jstr jti) =>
        (match getRecord store jti with
         | none => .error .revokedTokenError
         | some rec => if rec.revoked then .error .revokedTokenError else .ok ())
      | _ => .error (.pyCrash "KeyError: jti")
    else .ok ()
  | _ => .error (.pyCrash "KeyError: type")
where
  getRecord (store : Store) (jti : String) : Option StoredRecord :=
    match store with
    | [] => none
    | (k, rec) :: rest => if k == jti then some rec else getRecord rest jti

/-- _encode_access_token from utils.py.  The uuid draws (token id and csrf
    value) and the current time are passed in explicitly.  user_claims must be
    a dict and fresh a bool, else JWTEncodeError (a dict of string pairs is
    always json serializable, so the json.dumps guard of the source cannot
    fire in this model).  The claim set is built with exp = now + delta and
    iat = nbf = now, a csrf claim is added when cookies are in use with CSRF
    protection, and the token is written to the store only when blacklisting
    is enabled and the check scope is all. -/
def _encode_access_token (cfg : Config) (now : Int) (uid : String) (csrf_value : String)
    (identity : JVal) (token_expire_delta : Int) (fresh : JVal) (user_claims : JVal)
    (store : Store) : Except JWTError (Claims × Store) :=
  match user_claims with
  | .jmap _ =>
    (match fresh with
     | .jbool _ =>
       let base : Claims :=
         [("exp", .jnum (now + token_expire_delta)), ("iat", .jnum now), ("nbf", .jnum now),
          ("jti", .jstr uid), ("identity", identity), ("fresh", fresh),
          ("type", .jstr "access"), ("user_claims", user_claims)]
       let token_data :=
         if cfg.token_location.contains "cookies" && cfg.cookie_csrf_protect then
           base ++ [("csrf", .jstr csrf_value)]
         else base
       let store2 :=
         if cfg.blacklist_enabled && cfg.blacklist_checks == "all" then
           store_token store token_data false
         else store
       .ok (token_data, store2)
     | _ => .error (.encodeError "fresh must be a bool"))
  | _ => .error (.encodeError "user_claims must be a dict")

/-- _encode_refresh_token from utils.py: same claim construction without the
    fresh and user_claims claims, and the token is written to the store
    whenever blacklisting is enabled, regardless of the check scope. -/
def _encode_refresh_token (cfg : Config) (now : Int) (uid : String) (csrf_value : String)
    (identity : JVal) (token_expire_delta : Int) (store : Store) : Claims × Store :=
  let base : Claims :=
    [("exp", .jnum (now + token_expire_delta)), ("iat", .jnum now), ("nbf", .jnum now),
     ("jti", .jstr uid), ("identity", identity), ("type", .jstr "refresh")]
  let token_data :=
    if cfg.token_location.contains "cookies" && cfg.cookie_csrf_protect then
      base ++ [("csrf", .jstr csrf_value)]
    else base
  let store2 := if cfg.blacklist_enabled then store_token store token_data false else store
  (token_data, store2)

/-- Outcome of a decorated view: either the view runs with the jwt bound into
    the request context, or a typed failure is raised. -/
inductive Outcome where
  | handled : Claims → Outcome
  | failed : JWTError → Outcome

/-- The jwt_required decorator from utils.py: extract and decode an access
    token, reject non-access types with WrongTokenError, run the revocation
    check when blacklisting is enabled, then bind the jwt and call the view. -/
def jwt_required (cfg : Config) (env : Env) (r : Request) (store : Store) : Outcome :=
  match _decode_jwt_from_request cfg env r "access" with
  | .error e => .failed e
  | .ok jwt_data =>
    match lookup jwt_data "type" with
    | some (.jstr "access") =>
      (match (if cfg.blacklist_enabled then check_if_token_revoked cfg store jwt_data else .ok ()) with
       | .error e => .failed e
       | .ok _ => .handled jwt_data)
    | none => .failed (.pyCrash "KeyError: type")
    | some _ => .failed (.wrongTokenError "Only access tokens can access this endpoint")

/-- The fresh_jwt_required decorator from utils.py: as jwt_required, then
    additionally reject with FreshTokenRequired when the fresh claim is not
    truthy. -/
def fresh_jwt_required (cfg : Config) (env : Env) (r : Request) (store : Store) : Outcome :=
  match _decode_jwt_from_request cfg env r "access" with
  | .error e => .failed e
  | .ok jwt_data =>
    match lookup jwt_data "type" with
    | some (.jstr "access") =>
      (match (if cfg.blacklist_enabled then check_if_token_revoked cfg store jwt_data else .ok ()) with
       | .error e => .failed e
       | .ok _ =>
         match lookup jwt_data "fresh" with
         | none => .failed (.pyCrash "KeyError: fresh")
         | some v =>
           if pyTruthy v then .handled jwt_data
           else .failed (.freshTokenRequired "Fresh token required"))
    | none => .failed (.pyCrash "KeyError: type")
    | some _ => .failed (.wrongTokenError "Only access tokens can access this endpoint")

/-- The jwt_refresh_token_required decorator from utils.py: extract and decode
    a refresh token, reject non-refresh types with WrongTokenError, run the
    revocation check when blacklisting is enabled, then bind the jwt and call
    the view. -/
def jwt_refresh_token_required (cfg : Config) (env : Env) (r : Request) (store : Store) : Outcome :=
  match _decode_jwt_from_request cfg env r "refresh" with
  | .error e => .failed e
  | .ok jwt_data =>
    match lookup jwt_data "type" with
    | some (.jstr "refresh") =>
      (match (if cfg.blacklist_enabled then check_if_token_revoked cfg store jwt_data else .ok ()) with
       | .error e => .failed e
       | .ok _ => .handled jwt_data)
    | none => .failed (.pyCrash "KeyError: type")
    | some _ => .failed (.wrongTokenError "Only refresh tokens can access this endpoint")

/-- check_if_token_in_blacklist from examples/redis_blacklist.py: the loader
    reads the jti of the decrypted token (passed here directly), fetches its
    entry from the revoked store, returns false when the entry is absent, and
    otherwise reports whether the entry equals the string true. -/
def check_if_token_in_blacklist (revoked_store : List (String × String)) (jti : String) : Bool :=
  match getStr revoked_store jti with
  | none => false
  | some entry => entry == "true"

/-- get_raw_jwt from utils.py: the jwt bound in the request context, or the
    empty dict when none is bound (getattr default). -/
def get_raw_jwt (ctx_jwt : Option Claims) : Claims :=
  ctx_jwt.getD []

/-- get_jwt_identity from utils.py: the identity claim of the context jwt, with
    an empty dict as the get default. -/
def get_jwt_identity (ctx_jwt : Option Claims) : JVal :=
  (lookup (get_raw_jwt ctx_jwt) "identity").getD (.jmap [])

/-! ## Theorems settling the claims -/

/-- C1: the claim says a revocation lookup on a jti with no record in the
    ledger store treats the token as revoked.  The example loader in
    redis_blacklist.py does the opposite: on a store with no record for the
    jti it returns false, reporting the token as not blacklisted, although its
    own comment says an unknown jti is to be considered revoked for safety.
    This theorem evaluates the loader at such a failing input. -/
theorem c1_unknown_jti_reported_not_revoked :
    check_if_token_in_blacklist [] "unknown-jti" = false := rfl

/-- C5 counterexample: a token past its expiry whose signature does not verify
    fails with the generic decode error raised for signature failures, not with
    the distinguished expired error, refuting the claim that every token past
    expiresAt fails with ExpiredTokenError. -/
theorem c5_expired_invalid_signature_is_decode_error :
    _decode_jwt ⟨false, 0, 5, [("jti", .jstr "j"), ("identity", .jstr "a"), ("type", .jstr "refresh")]⟩ 10
      = .error (.decodeError "Signature verification failed") := rfl

/-- C5 amended: for every token whose signature verifies, whose notBefore has
    passed and whose expiry is at or before decode time, decode fails with the
    distinguished expired error, never the generic decode error; in particular
    expiration outranks all the malformed-claims shape checks, which never run
    (the payload here is arbitrary). -/
theorem c5_expiration_outranks_shape_errors (tok : EncodedToken) (now : Int)
    (hsig : tok.sigValid = true) (hnbf : tok.nbf ≤ now) (hexp : tok.exp ≤ now) :
    _decode_jwt tok now = .error .expiredError := by
  unfold _decode_jwt jwt_decode
  rw [hsig]
  simp [not_lt.mpr hnbf, hexp]

/-- C5 witness: a concrete well-signed, expired token with a malformed payload
    fails with the expired error. -/
theorem c5_expiration_outranks_shape_errors_witness :
    _decode_jwt ⟨true, 0, 5, [("garbage", .jnull)]⟩ 10 = .error .expiredError :=
  c5_expiration_outranks_shape_errors ⟨true, 0, 5, [("garbage", .jnull)]⟩ 10 rfl (by decide) (by decide)

/-- C6 counterexample: the claim requires decode to fail with a decode error
    when jti is not a non-empty string, but the source only checks that jti is
    a string: a payload whose jti is the empty string is accepted and returned
    as the decoded claims. -/
theorem c6_empty_jti_accepted :
    _decode_jwt ⟨true, 0, 100, [("jti", .jstr ""), ("identity", .jstr "a"), ("type", .jstr "refresh")]⟩ 10
      = .ok [("jti", .jstr ""), ("identity", .jstr "a"), ("type", .jstr "refresh")] := rfl

/-- The claim-shape conditions checked by _decode_jwt after the library decode:
    jti present and a string (possibly empty), identity present, type either
    access or refresh, and for access tokens fresh present and boolean plus
    user_claims present and a dict. -/
def valid_claims_shape (d : Claims) : Bool :=
  (match lookup d "jti" with | some (.jstr _) => true | _ => false) &&
  (lookup d "identity").isSome &&
  (match lookup d "type" with
   | some (.jstr "access") =>
     (match lookup d "fresh" with | some (.jbool _) => true | _ => false) &&
     (match lookup d "user_claims" with | some (.jmap _) => true | _ => false)
   | some (.jstr "refresh") => true
   | _ => false)

/-- Whether a decode result is the generic decode error (with some message). -/
def isShapeDecodeError : Except JWTError Claims → Bool
  | .error (.decodeError _) => true
  | _ => false

/-- C6 amended: for every token that passes the library decode (valid
    signature and time window), _decode_jwt returns the payload exactly when
    it satisfies the shape conditions with jti required to be a string (not
    necessarily non-empty), and otherwise fails with the generic decode
    error. -/
theorem c6_decode_shape (tok : EncodedToken) (now : Int)
    (h : jwt_decode tok now = .ok tok.payload) :
    (valid_claims_shape tok.payload = true → _decode_jwt tok now = .ok tok.payload) ∧
    (valid_claims_shape tok.payload = false → isShapeDecodeError (_decode_jwt tok now) = true) := by
  unfold _decode_jwt valid_claims_shape
  rw [h]
  constructor <;> intro hv <;>
    (repeat' first | (split at hv) | split) <;>
    simp_all [isShapeDecodeError]

/-- C6 witness: a concrete well-signed access token within its validity window
    and with all required claims decodes to its payload, and a concrete payload
    with a non-string jti fails with a decode error. -/
theorem c6_decode_shape_witness :
    _decode_jwt ⟨true, 0, 100, [("jti", .jstr "u1"), ("identity", .jstr "alice"),
        ("type", .jstr "access"), ("fresh", .jbool true), ("user_claims", .jmap [])]⟩ 10
      = .ok [("jti", .jstr "u1"), ("identity", .jstr "alice"),
        ("type", .jstr "access"), ("fresh", .jbool true), ("user_claims", .jmap [])] ∧
    isShapeDecodeError (_decode_jwt ⟨true, 0, 100, [("jti", .jnum 7)]⟩ 10) = true :=
  ⟨(c6_decode_shape ⟨true, 0, 100, [("jti", .jstr "u1"), ("identity", .jstr "alice"),
        ("type", .jstr "access"), ("fresh", .jbool true), ("user_claims", .jmap [])]⟩ 10 rfl).1 rfl,
   (c6_decode_shape ⟨true, 0, 100, [("jti", .jnum 7)]⟩ 10 rfl).2 rfl⟩

/-- C10: with no validated JWT bound into the request context, get_raw_jwt
    returns the empty dict and get_jwt_identity also returns the empty dict
    (not a null value and not an error), so both accessors are total outside
    an authenticated request. -/
theorem c10_context_accessors_return_empty_dict :
    get_raw_jwt none = ([] : Claims) ∧ get_jwt_identity none = .jmap [] :=
  ⟨rfl, rfl⟩

/-- Configuration for the C9 instance: headers only, scheme word Bearer. -/
def c9cfg : Config :=
  ⟨["headers"], "Bearer", "Authorization", "Authorization",
   "access_token_cookie", "refresh_token_cookie",
   "X-CSRF-TOKEN", "X-CSRF-REFRESH-TOKEN",
   false, [], false, "refresh"⟩

/-- Environment for the C9 instance (never reached by the failing input). -/
def c9env : Env := ⟨fun _ => ⟨true, 0, 100, []⟩, 10⟩

/-- Request for the C9 instance: the authorization header is present but its
    value is a single space. -/
def c9req : Request := ⟨[("Authorization", " ")], [], "GET"⟩

/-- C9: the claim says that with a scheme word configured, any header value
    not of the exact two-part shape fails with the malformed-header error.
    The source instead evaluates parts[0] before checking the length, so a
    present header whose value is whitespace only (split yields the empty
    list) raises an unhandled IndexError rather than InvalidHeaderError.
    This theorem evaluates the extractor at that failing input. -/
theorem c9_whitespace_header_crashes :
    _decode_jwt_from_headers c9cfg c9env c9req "access"
      = .error (.pyCrash "IndexError: list index out of range") := rfl

/-- Configuration for the C2 instances: cookies only, CSRF protection on,
    POST in the CSRF-checked method set. -/
def c2cfg : Config :=
  ⟨["cookies"], "", "Authorization", "Authorization",
   "access_token_cookie", "refresh_token_cookie",
   "X-CSRF-TOKEN", "X-CSRF-REFRESH-TOKEN",
   true, ["POST", "PUT", "PATCH", "DELETE"], false, "refresh"⟩

/-- An otherwise-valid access token payload with no embedded csrf claim. -/
def c2payloadNoCsrf : Claims :=
  [("jti", .jstr "u1"), ("identity", .jstr "alice"), ("type", .jstr "access"),
   ("fresh", .jbool true), ("user_claims", .jmap [])]

/-- Environment mapping every token string to the csrf-less valid token. -/
def c2envNoCsrf : Env := ⟨fun _ => ⟨true, 0, 100, c2payloadNoCsrf⟩, 10⟩

/-- Request with the access cookie set and a CSRF header value present. -/
def c2req : Request :=
  ⟨[("X-CSRF-TOKEN", "zzz")], [("access_token_cookie", "tok")], "POST"⟩

/-- C2 counterexample: the claim says a cookie-sourced token fails with the
    CSRF mismatch error whenever either of the two CSRF values is absent, but
    when the embedded csrf claim is absent the source raises JWTDecodeError,
    not CSRFError: extraction of an otherwise-valid csrf-less token with the
    CSRF header present fails with the decode error. -/
theorem c2_missing_csrf_claim_is_decode_error :
    _decode_jwt_from_cookies c2cfg c2envNoCsrf c2req "access"
      = .error (.decodeError "Missing claim: csrf") := rfl

/-- C2 amended: for a cookie-sourced token with CSRF protection enabled and
    the request method in the configured CSRF-checked set, when the cookie is
    present and its token decodes: a token without an embedded csrf claim
    fails with the decode error; a token with a string csrf claim fails with
    the CSRF mismatch error when the CSRF header is absent, and likewise when
    the header value differs from the claim.  In none of these cases does the
    otherwise-valid token authenticate. -/
theorem c2_cookie_csrf_checks (cfg : Config) (env : Env) (r : Request) (ty : String)
    (tokStr : String) (token : Claims)
    (hprot : cfg.cookie_csrf_protect = true)
    (hmeth : cfg.csrf_request_methods.contains r.method = true)
    (hcookie : getStr r.cookies
      (if ty == "access" then cfg.access_cookie_name else cfg.refresh_cookie_name) = some tokStr)
    (hne : tokStr ≠ "")
    (hdec : decode_token_string env tokStr = .ok token) :
    (lookup token "csrf" = none →
      _decode_jwt_from_cookies cfg env r ty = .error (.decodeError "Missing claim: csrf")) ∧
    (∀ s, lookup token "csrf" = some (.jstr s) →
      getStr r.headers
        (if ty == "access" then cfg.access_csrf_header_name else cfg.refresh_csrf_header_name) = none →
      _decode_jwt_from_cookies cfg env r ty = .error (.csrfError "Missing CSRF token in headers")) ∧
    (∀ s hdr, lookup token "csrf" = some (.jstr s) →
      getStr r.headers
        (if ty == "access" then cfg.access_csrf_header_name else cfg.refresh_csrf_header_name) = some hdr →
      hdr ≠ s →
      _decode_jwt_from_cookies cfg env r ty
        = .error (.csrfError "CSRF double submit tokens do not match")) := by
  have h0 : (tokStr == "") = false := by simp [hne]
  unfold _decode_jwt_from_cookies
  rw [hcookie]
  simp only [h0, Bool.false_eq_true, if_false, hdec, hprot, hmeth, Bool.and_self, if_true]
  refine ⟨fun hcs => ?_, fun s hcs hh => ?_, fun s hdr hcs hh hd => ?_⟩ <;>
    simp_all [safe_str_cmp]

/-- An otherwise-valid access token payload with embedded csrf claim abc. -/
def c2payloadCsrf : Claims :=
  [("jti", .jstr "u1"), ("identity", .jstr "alice"), ("type", .jstr "access"),
   ("fresh", .jbool true), ("user_claims", .jmap []), ("csrf", .jstr "abc")]

/-- Environment mapping every token string to the csrf-bearing valid token. -/
def c2envCsrf : Env := ⟨fun _ => ⟨true, 0, 100, c2payloadCsrf⟩, 10⟩

/-- C2 witness: with the embedded csrf claim abc and the header value zzz, the
    mismatch case of the amended theorem applies at a concrete input. -/
theorem c2_cookie_csrf_checks_witness :
    _decode_jwt_from_cookies c2cfg c2envCsrf c2req "access"
      = .error (.csrfError "CSRF double submit tokens do not match") :=
  (c2_cookie_csrf_checks c2cfg c2envCsrf c2req "access" "tok" c2payloadCsrf
    rfl rfl rfl (by decide) rfl).2.2 "abc" "zzz" rfl rfl (by decide)

/-- C4: when both header and cookie locations are configured, the extractor
    returns the header result when the header path succeeds; a non-missing
    header failure propagates unchanged (no fallback); a missing-token header
    failure falls back to the cookie path, whose success or non-missing
    failure is returned unchanged; and when both paths report missing, the
    combined missing-token error is raised. -/
theorem c4_location_fallback (cfg : Config) (env : Env) (r : Request) (ty : String)
    (hh : cfg.token_location.contains "headers" = true)
    (hc : cfg.token_location.contains "cookies" = true) :
    (∀ c, _decode_jwt_from_headers cfg env r ty = .ok c →
      _decode_jwt_from_request cfg env r ty = .ok c) ∧
    (∀ e, _decode_jwt_from_headers cfg env r ty = .error e → e.isNoAuth = false →
      _decode_jwt_from_request cfg env r ty = .error e) ∧
    (∀ e c, _decode_jwt_from_headers cfg env r ty = .error e → e.isNoAuth = true →
      _decode_jwt_from_cookies cfg env r ty = .ok c →
      _decode_jwt_from_request cfg env r ty = .ok c) ∧
    (∀ e e2, _decode_jwt_from_headers cfg env r ty = .error e → e.isNoAuth = true →
      _decode_jwt_from_cookies cfg env r ty = .error e2 → e2.isNoAuth = false →
      _decode_jwt_from_request cfg env r ty = .error e2) ∧
    (∀ e e2, _decode_jwt_from_headers cfg env r ty = .error e → e.isNoAuth = true →
      _decode_jwt_from_cookies cfg env r ty = .error e2 → e2.isNoAuth = true →
      _decode_jwt_from_request cfg env r ty
        = .error (.noAuthorizationError "Missing JWT in header and cookies")) := by
  unfold _decode_jwt_from_request
  simp only [hh, hc, Bool.and_self, if_true]
  refine ⟨fun c h1 => ?_, fun e h1 h2 => ?_, fun e c h1 h2 h3 => ?_,
          fun e e2 h1 h2 h3 h4 => ?_, fun e e2 h1 h2 h3 h4 => ?_⟩ <;>
    simp_all

/-- Configuration for the C4 witness: both locations allowed. -/
def c4cfg : Config :=
  ⟨["headers", "cookies"], "Bearer", "Authorization", "Authorization",
   "access_token_cookie", "refresh_token_cookie",
   "X-CSRF-TOKEN", "X-CSRF-REFRESH-TOKEN",
   false, [], false, "refresh"⟩

/-- Environment for the C4 witness. -/
def c4env : Env := ⟨fun _ => ⟨true, 0, 100, []⟩, 10⟩

/-- C4 witness: a request carrying neither the header nor the cookie fails
    with the combined missing-token error, by the last case of the theorem. -/
theorem c4_location_fallback_witness :
    _decode_jwt_from_request c4cfg c4env ⟨[], [], "GET"⟩ "access"
      = .error (.noAuthorizationError "Missing JWT in header and cookies") :=
  (c4_location_fallback c4cfg c4env ⟨[], [], "GET"⟩ "access" rfl rfl).2.2.2.2
    (.noAuthorizationError "Missing Header") (.noAuthorizationError "Missing cookie")
    rfl rfl rfl rfl

/-- C3: scope control of ledger registration at issuance.  With the check
    scope configured to refresh only, issuing an access token leaves the store
    unchanged; with blacklisting enabled, issuing a refresh token always
    prepends exactly one unrevoked record keyed by the new token id; and with
    scope all plus blacklisting enabled, issuing an access token also prepends
    exactly one unrevoked record. -/
theorem c3_ledger_scope (cfg : Config) (now : Int) (uid csrfv : String) (identity : JVal)
    (delta : Int) (fresh uc : JVal) (store : Store) :
    (cfg.blacklist_checks = "refresh" →
      ∀ td st, _encode_access_token cfg now uid csrfv identity delta fresh uc store
          = .ok (td, st) → st = store) ∧
    (cfg.blacklist_enabled = true →
      ∃ td, _encode_refresh_token cfg now uid csrfv identity delta store
        = (td, (uid, ⟨td, false⟩) :: store)) ∧
    (cfg.blacklist_enabled = true → cfg.blacklist_checks = "all" →
      ∀ td st, _encode_access_token cfg now uid csrfv identity delta fresh uc store
          = .ok (td, st) → st = (uid, ⟨td, false⟩) :: store) := by
  refine ⟨fun href td st henc => ?_, fun hen => ?_, fun hen hall td st henc => ?_⟩
  · unfold _encode_access_token at henc
    rcases uc with _ | b | n | s | m <;> rcases fresh with _ | b2 | n2 | s2 | m2 <;>
      simp_all
  · unfold _encode_refresh_token
    rw [hen]
    dsimp only
    split
    next hcc =>
      refine ⟨[("exp", JVal.jnum (now + delta)), ("iat", JVal.jnum now), ("nbf", JVal.jnum now),
        ("jti", JVal.jstr uid), ("identity", identity), ("type", JVal.jstr "refresh"),
        ("csrf", JVal.jstr csrfv)], ?_⟩
      simp [store_token, lookup]
    next hcc =>
      refine ⟨[("exp", JVal.jnum (now + delta)), ("iat", JVal.jnum now), ("nbf", JVal.jnum now),
        ("jti", JVal.jstr uid), ("identity", identity), ("type", JVal.jstr "refresh")], ?_⟩
      simp [store_token, lookup]
  · unfold _encode_access_token at henc
    rcases uc with _ | b | n | s | m <;> rcases fresh with _ | b2 | n2 | s2 | m2 <;>
      simp_all
    split at henc <;>
      (simp_all [store_token, lookup]
       obtain ⟨h1, h2⟩ := henc; subst h1; exact h2.symm)

/-- Configuration for the C3 witness: refresh-only check scope, ledger on. -/
def c3cfgRefresh : Config :=
  ⟨["headers"], "Bearer", "Authorization", "Authorization",
   "access_token_cookie", "refresh_token_cookie",
   "X-CSRF-TOKEN", "X-CSRF-REFRESH-TOKEN",
   false, [], true, "refresh"⟩

/-- Configuration for the C3 witness: check scope all, ledger on. -/
def c3cfgAll : Config :=
  ⟨["headers"], "Bearer", "Authorization", "Authorization",
   "access_token_cookie", "refresh_token_cookie",
   "X-CSRF-TOKEN", "X-CSRF-REFRESH-TOKEN",
   false, [], true, "all"⟩

/-- C3 witness: at concrete inputs, an access token issued under refresh-only
    scope leaves an empty store empty, a refresh token issued with the ledger
    enabled writes exactly one record, and an access token issued under scope
    all writes exactly one record. -/
theorem c3_ledger_scope_witness :
    (∀ td st, _encode_access_token c3cfgRefresh 0 "u1" "c" (.jstr "alice") 900
        (.jbool true) (.jmap []) [] = .ok (td, st) → st = ([] : Store)) ∧
    (∃ td, _encode_refresh_token c3cfgRefresh 0 "u2" "c" (.jstr "alice") 900 []
      = (td, [("u2", ⟨td, false⟩)])) ∧
    (∀ td st, _encode_access_token c3cfgAll 0 "u3" "c" (.jstr "alice") 900
        (.jbool true) (.jmap []) [] = .ok (td, st) → st = [("u3", ⟨td, false⟩)]) :=
  ⟨(c3_ledger_scope c3cfgRefresh 0 "u1" "c" (.jstr "alice") 900
      (.jbool true) (.jmap []) [] ).1 rfl,
   (c3_ledger_scope c3cfgRefresh 0 "u2" "c" (.jstr "alice") 900
      (.jbool true) (.jmap []) [] ).2.1 rfl,
   (c3_ledger_scope c3cfgAll 0 "u3" "c" (.jstr "alice") 900
      (.jbool true) (.jmap []) [] ).2.2 rfl rfl⟩

/-- Configuration for the C8 counterexample: headers only, ledger off. -/
def c8cfg : Config :=
  ⟨["headers"], "Bearer", "Authorization", "Authorization",
   "access_token_cookie", "refresh_token_cookie",
   "X-CSRF-TOKEN", "X-CSRF-REFRESH-TOKEN",
   false, [], false, "refresh"⟩

/-- C8 counterexample: with a configured lifetime of zero (as in the
    repository test encoding a refresh token with a zero timedelta), the
    issued token has issuedAt equal to expiresAt, violating the claimed strict
    inequality issuedAt < expiresAt. -/
theorem c8_zero_lifetime_counterexample :
    lookup (_encode_refresh_token c8cfg 50 "u1" "c" (.jstr "foo") 0 []).1 "iat"
        = some (.jnum 50) ∧
    lookup (_encode_refresh_token c8cfg 50 "u1" "c" (.jstr "foo") 0 []).1 "exp"
        = some (.jnum 50) :=
  ⟨rfl, rfl⟩

/-- C8 amended: every token built by the issuer has the right type claim
    (access or refresh); every successfully encoded access token carries a
    boolean fresh claim and a dict user_claims claim; a refresh token carries
    neither; and the timestamps satisfy notBefore = issuedAt and
    expiresAt = issuedAt + lifetime, hence notBefore ≤ issuedAt always, and
    issuedAt < expiresAt whenever the configured lifetime is positive (a
    non-positive lifetime yields expiresAt ≤ issuedAt). -/
theorem c8_issuer_claim_invariants (cfg : Config) (now : Int) (uid csrfv : String)
    (identity : JVal) (delta : Int) (fresh uc : JVal) (store : Store) :
    (∀ td st, _encode_access_token cfg now uid csrfv identity delta fresh uc store
        = .ok (td, st) →
      lookup td "type" = some (.jstr "access") ∧
      (∃ b, lookup td "fresh" = some (.jbool b)) ∧
      (∃ m, lookup td "user_claims" = some (.jmap m)) ∧
      lookup td "nbf" = some (.jnum now) ∧
      lookup td "iat" = some (.jnum now) ∧
      lookup td "exp" = some (.jnum (now + delta))) ∧
    (lookup (_encode_refresh_token cfg now uid csrfv identity delta store).1 "type"
        = some (.jstr "refresh") ∧
      lookup (_encode_refresh_token cfg now uid csrfv identity delta store).1 "fresh" = none ∧
      lookup (_encode_refresh_token cfg now uid csrfv identity delta store).1 "user_claims"
        = none ∧
      lookup (_encode_refresh_token cfg now uid csrfv identity delta store).1 "nbf"
        = some (.jnum now) ∧
      lookup (_encode_refresh_token cfg now uid csrfv identity delta store).1 "iat"
        = some (.jnum now) ∧
      lookup (_encode_refresh_token cfg now uid csrfv identity delta store).1 "exp"
        = some (.jnum (now + delta))) ∧
    (0 < delta → now < now + delta) := by
  refine ⟨fun td st henc => ?_, ?_, fun hd => by omega⟩
  · unfold _encode_access_token at henc
    rcases uc with _ | b | n | s | m <;> rcases fresh with _ | b2 | n2 | s2 | m2 <;>
      simp_all
    split at henc <;>
      (obtain ⟨h1, h2⟩ := henc; subst h1; simp [lookup])
  · unfold _encode_refresh_token
    dsimp only
    split <;> simp [lookup]

/-- C8 witness: a concrete access token issued with a positive lifetime has
    all the invariant claims, and the strict timestamp inequality holds. -/
theorem c8_issuer_claim_invariants_witness :
    (lookup [("exp", JVal.jnum 900), ("iat", JVal.jnum 0), ("nbf", JVal.jnum 0),
        ("jti", JVal.jstr "u1"), ("identity", JVal.jstr "alice"), ("fresh", JVal.jbool true),
        ("type", JVal.jstr "access"), ("user_claims", JVal.jmap [])] "type"
      = some (.jstr "access") ∧
     (∃ b, lookup [("exp", JVal.jnum 900), ("iat", JVal.jnum 0), ("nbf", JVal.jnum 0),
        ("jti", JVal.jstr "u1"), ("identity", JVal.jstr "alice"), ("fresh", JVal.jbool true),
        ("type", JVal.jstr "access"), ("user_claims", JVal.jmap [])] "fresh"
      = some (.jbool b)) ∧
     (∃ m, lookup [("exp", JVal.jnum 900), ("iat", JVal.jnum 0), ("nbf", JVal.jnum 0),
        ("jti", JVal.jstr "u1"), ("identity", JVal.jstr "alice"), ("fresh", JVal.jbool true),
        ("type", JVal.jstr "access"), ("user_claims", JVal.jmap [])] "user_claims"
      = some (.jmap m)) ∧
     lookup [("exp", JVal.jnum 900), ("iat", JVal.jnum 0), ("nbf", JVal.jnum 0),
        ("jti", JVal.jstr "u1"), ("identity", JVal.jstr "alice"), ("fresh", JVal.jbool true),
        ("type", JVal.jstr "access"), ("user_claims", JVal.jmap [])] "nbf"
      = some (.jnum 0) ∧
     lookup [("exp", JVal.jnum 900), ("iat", JVal.jnum 0), ("nbf", JVal.jnum 0),
        ("jti", JVal.jstr "u1"), ("identity", JVal.jstr "alice"), ("fresh", JVal.jbool true),
        ("type", JVal.jstr "access"), ("user_claims", JVal.jmap [])] "iat"
      = some (.jnum 0) ∧
     lookup [("exp", JVal.jnum 900), ("iat", JVal.jnum 0), ("nbf", JVal.jnum 0),
        ("jti", JVal.jstr "u1"), ("identity", JVal.jstr "alice"), ("fresh", JVal.jbool true),
        ("type", JVal.jstr "access"), ("user_claims", JVal.jmap [])] "exp"
      = some (.jnum (0 + 900))) ∧
    ((0 : Int) < 900 → (0 : Int) < 0 + 900) :=
  ⟨(c8_issuer_claim_invariants c8cfg 0 "u1" "c" (.jstr "alice") 900
      (.jbool true) (.jmap []) []).1 _ _ rfl,
   (c8_issuer_claim_invariants c8cfg 0 "u1" "c" (.jstr "alice") 900
      (.jbool true) (.jmap []) []).2.2⟩

/-- C7: the per-request authenticator checks in a fixed order with typed
    terminal rejections.  After successful extraction: a decoded refresh token
    presented to an access-required decorator is rejected with the wrong-token
    error for every store, so the type check precedes any revocation lookup
    (and symmetrically for the refresh decorator); with the ledger enabled, a
    revoked token is rejected with the revoked error even when its fresh claim
    is false, so the revocation check precedes the freshness gate; a valid
    non-revoked access token with fresh false is rejected by the fresh-required
    decorator with the fresh-token-required error; and with fresh true it
    proceeds to the handler with its claims bound into the request context. -/
theorem c7_authenticator_order (cfg : Config) (env : Env) (r : Request) (store : Store)
    (d : Claims) :
    (_decode_jwt_from_request cfg env r "access" = .ok d →
      lookup d "type" = some (.jstr "refresh") →
      jwt_required cfg env r store
        = .failed (.wrongTokenError "Only access tokens can access this endpoint") ∧
      fresh_jwt_required cfg env r store
        = .failed (.wrongTokenError "Only access tokens can access this endpoint")) ∧
    (_decode_jwt_from_request cfg env r "refresh" = .ok d →
      lookup d "type" = some (.jstr "access") →
      jwt_refresh_token_required cfg env r store
        = .failed (.wrongTokenError "Only refresh tokens can access this endpoint")) ∧
    (_decode_jwt_from_request cfg env r "access" = .ok d →
      lookup d "type" = some (.jstr "access") →
      cfg.blacklist_enabled = true →
      check_if_token_revoked cfg store d = .error .revokedTokenError →
      fresh_jwt_required cfg env r store = .failed .revokedTokenError) ∧
    (_decode_jwt_from_request cfg env r "access" = .ok d →
      lookup d "type" = some (.jstr "access") →
      (cfg.blacklist_enabled = true → check_if_token_revoked cfg store d = .ok ()) →
      lookup d "fresh" = some (.jbool false) →
      fresh_jwt_required cfg env r store
        = .failed (.freshTokenRequired "Fresh token required")) ∧
    (_decode_jwt_from_request cfg env r "access" = .ok d →
      lookup d "type" = some (.jstr "access") →
      (cfg.blacklist_enabled = true → check_if_token_revoked cfg store d = .ok ()) →
      lookup d "fresh" = some (.jbool true) →
      fresh_jwt_required cfg env r store = .handled d) := by
  refine ⟨fun hreq hty => ?_, fun hreq hty => ?_, fun hreq hty hen hrev => ?_,
          fun hreq hty hok hf => ?_, fun hreq hty hok hf => ?_⟩
  · exact ⟨by simp [jwt_required, hreq, hty], by simp [fresh_jwt_required, hreq, hty]⟩
  · simp [jwt_refresh_token_required, hreq, hty]
  · simp [fresh_jwt_required, hreq, hty, hen, hrev]
  · cases hen : cfg.blacklist_enabled <;> simp_all [fresh_jwt_required, pyTruthy]
  · cases hen : cfg.blacklist_enabled <;> simp_all [fresh_jwt_required, pyTruthy]

/-- Configuration for the C7 witness: headers only, ledger on, scope all. -/
def c7cfg : Config :=
  ⟨["headers"], "Bearer", "Authorization", "Authorization",
   "access_token_cookie", "refresh_token_cookie",
   "X-CSRF-TOKEN", "X-CSRF-REFRESH-TOKEN",
   false, [], true, "all"⟩

/-- A fresh access token payload used by the C7 witness. -/
def c7payload : Claims :=
  [("jti", .jstr "u1"), ("identity", .jstr "alice"), ("type", .jstr "access"),
   ("fresh", .jbool true), ("user_claims", .jmap [])]

/-- Environment for the C7 witness: every token string decodes to c7payload. -/
def c7env : Env := ⟨fun _ => ⟨true, 0, 100, c7payload⟩, 10⟩

/-- Request for the C7 witness: bearer token in the authorization header. -/
def c7req : Request := ⟨[("Authorization", "Bearer tok")], [], "GET"⟩

/-- C7 witness: at a concrete request carrying a valid fresh access token that
    is registered unrevoked in the store, the fresh-required decorator
    proceeds to the handler with the claims bound. -/
theorem c7_authenticator_order_witness :
    fresh_jwt_required c7cfg c7env c7req [("u1", ⟨c7payload, false⟩)] = .handled c7payload :=
  (c7_authenticator_order c7cfg c7env c7req [("u1", ⟨c7payload, false⟩)] c7payload).2.2.2.2
    rfl rfl (fun _ => rfl) rfl

end FlaskJWT
